import Mathlib

/-!
Verification of the CUDA C shim layer (`cbits/stubs.c`, `cbits/stubs.h`).

The repository consists of thin C wrapper functions that forward their
arguments to the proprietary CUDA driver/runtime library.  We model the
vendor library as a structure of uninterpreted, effectful functions: each
vendor entry point takes its C arguments together with an abstract world
(driver state) of type `W` and returns a result paired with the successor
world.  The shims are then translated from `stubs.c` as Lean functions
parameterised by such a vendor instance.

C machine integers are modelled by unbounded mathematical types together
with explicit conversion functions where the C code performs an integral
conversion:
* a C `int` argument is a `CInt`, an integer confined to `[-2^31, 2^31)`;
* C unsigned types (`unsigned int`, `size_t`, `unsigned char`,
  `unsigned short`) are `Nat`; all conversions among unsigned types that
  occur in `stubs.c` are widenings, which preserve the numeric value, so
  they are identities on `Nat`;
* the conversion of an `int` value to `unsigned int` (as in the `dim3`
  initialisers and `desc.NumChannels`) is reduction modulo `2^32`, and to
  `size_t` (as in `desc.Width`, `desc.Height` and the `Pitch` argument)
  reduction modulo `2^64`, exactly the C semantics of signed-to-unsigned
  conversion.

Opaque handle and pointer types (`cudaStream_t`, `CUtexref`, `CUdeviceptr`,
`CUcontext*`, `size_t*`, `const char*`, ...) are modelled as opaque tokens
(`Nat`); the shims only ever pass them through unchanged.  The single
pointer the shim layer itself creates, the `&desc` of
`cuTexRefSetAddress2DSimple`, is modelled by passing the pointed-to
`CUDA_ARRAY_DESCRIPTOR` value to the vendor function.
-/

namespace CudaStubs

/-- Result type of CUDA runtime API calls (`cudaError_t`), opaque here. -/
abbrev cudaError_t : Type := Nat

/-- Result type of CUDA driver API calls (`CUresult`), opaque here. -/
abbrev CUresult : Type := Nat

/-- C `size_t` values (nonnegative). -/
abbrev size_t : Type := Nat

/-- C `unsigned int` values (nonnegative). -/
abbrev c_unsigned : Type := Nat

/-- C `unsigned char` values. -/
abbrev c_uchar : Type := Nat

/-- C `unsigned short` values. -/
abbrev c_ushort : Type := Nat

/-- Opaque handle: CUDA runtime stream (`cudaStream_t`). -/
abbrev cudaStream_t : Type := Nat

/-- Opaque handle: driver texture reference (`CUtexref`). -/
abbrev CUtexref : Type := Nat

/-- Opaque handle: device pointer (`CUdeviceptr`). -/
abbrev CUdeviceptr : Type := Nat

/-- Opaque handle: device ordinal (`CUdevice`), passed through unchanged. -/
abbrev CUdevice : Type := Nat

/-- Opaque handle: module (`CUmodule`). -/
abbrev CUmodule : Type := Nat

/-- Opaque handle: driver stream (`CUstream`). -/
abbrev CUstream : Type := Nat

/-- The `CUarray_format` enumeration value, passed through unchanged. -/
abbrev CUarray_format : Type := Nat

/-- Opaque pointer values (`void *`, `const void *`, `const char *`,
`size_t *`, `CUdeviceptr *`, `CUcontext *`): addresses passed through. -/
abbrev CPtr : Type := Nat

/-- A C `int` value: an integer in `[-2^31, 2^31)`. -/
structure CInt where
  val : Int
  lower : -2147483648 ≤ val
  upper : val < 2147483648

/-- C conversion of an `int` value to `unsigned int`: reduction mod `2^32`. -/
def toUInt32v (x : Int) : Nat := (x % 4294967296).toNat

/-- C conversion of an `int` value to `size_t`: reduction mod `2^64`. -/
def toSizeTv (x : Int) : Nat := (x % 18446744073709551616).toNat

/-- The CUDA runtime `dim3` structure (three `unsigned int` fields). -/
structure dim3 where
  x : c_unsigned
  y : c_unsigned
  z : c_unsigned

/-- The driver API `CUDA_ARRAY_DESCRIPTOR` structure: `Format` is a
`CUarray_format`, `NumChannels` an `unsigned int`, `Width` and `Height`
are `size_t`. -/
structure CUDA_ARRAY_DESCRIPTOR where
  Format : CUarray_format
  NumChannels : c_unsigned
  Width : size_t
  Height : size_t

/-- The vendor CUDA library, as uninterpreted effectful functions over an
abstract driver-state type `W`.  `cuTexRefSetAddress2D` receives the
descriptor that its `const CUDA_ARRAY_DESCRIPTOR *` argument points to. -/
structure Vendor (W : Type) where
  cudaConfigureCall : dim3 → dim3 → size_t → cudaStream_t → W → cudaError_t × W
  cudaGetErrorString : cudaError_t → W → CPtr × W
  cuTexRefSetAddress2D : CUtexref → CUDA_ARRAY_DESCRIPTOR → CUdeviceptr → size_t → W → CUresult × W
  cuDeviceTotalMem_v2 : CPtr → CUdevice → W → CUresult × W
  cuCtxCreate_v2 : CPtr → c_unsigned → CUdevice → W → CUresult × W
  cuModuleGetGlobal_v2 : CPtr → CPtr → CUmodule → CPtr → W → CUresult × W
  cuMemAlloc_v2 : CPtr → size_t → W → CUresult × W
  cuMemFree_v2 : CUdeviceptr → W → CUresult × W
  cuMemHostGetDevicePointer_v2 : CPtr → CPtr → c_unsigned → W → CUresult × W
  cuMemcpyHtoD_v2 : CUdeviceptr → CPtr → size_t → W → CUresult × W
  cuMemcpyDtoH_v2 : CPtr → CUdeviceptr → size_t → W → CUresult × W
  cuMemcpyDtoD_v2 : CUdeviceptr → CUdeviceptr → size_t → W → CUresult × W
  cuMemcpyHtoDAsync_v2 : CUdeviceptr → CPtr → size_t → CUstream → W → CUresult × W
  cuMemcpyDtoHAsync_v2 : CPtr → CUdeviceptr → size_t → CUstream → W → CUresult × W
  cuMemsetD8_v2 : CUdeviceptr → c_uchar → size_t → W → CUresult × W
  cuMemsetD16_v2 : CUdeviceptr → c_ushort → size_t → W → CUresult × W
  cuMemsetD32_v2 : CUdeviceptr → c_unsigned → size_t → W → CUresult × W
  cuTexRefSetAddress_v2 : CPtr → CUtexref → CUdeviceptr → size_t → W → CUresult × W

/-- `cudaConfigureCallSimple` from `stubs.c`: builds
`dim3 gridDim = {gx,gy,1}` and `dim3 blockDim = {bx,by,bz}` (each `int`
initialiser converted to `unsigned int`) and forwards to
`cudaConfigureCall`. -/
def cudaConfigureCallSimple {W : Type} (V : Vendor W)
    (gx gy bx by_ bz : CInt) (sharedMem : size_t) (stream : cudaStream_t)
    (w : W) : cudaError_t × W :=
  let gridDim : dim3 := ⟨toUInt32v gx.val, toUInt32v gy.val, 1⟩
  let blockDim : dim3 := ⟨toUInt32v bx.val, toUInt32v by_.val, toUInt32v bz.val⟩
  V.cudaConfigureCall gridDim blockDim sharedMem stream w

/-- `cudaGetErrorStringWrapper` from `stubs.c`. -/
def cudaGetErrorStringWrapper {W : Type} (V : Vendor W)
    (error : cudaError_t) (w : W) : CPtr × W :=
  V.cudaGetErrorString error w

/-- `cuTexRefSetAddress2DSimple` from `stubs.c`: fills a local
`CUDA_ARRAY_DESCRIPTOR` (with the C conversions of the `int` arguments to
the unsigned field types) and forwards to `cuTexRefSetAddress2D`; the
`int` argument `pitch` is converted to the `size_t` parameter `Pitch`. -/
def cuTexRefSetAddress2DSimple {W : Type} (V : Vendor W)
    (tex : CUtexref) (fmt : CUarray_format) (chn : CInt) (dptr : CUdeviceptr)
    (width height pitch : CInt) (w : W) : CUresult × W :=
  let desc : CUDA_ARRAY_DESCRIPTOR :=
    ⟨fmt, toUInt32v chn.val, toSizeTv width.val, toSizeTv height.val⟩
  V.cuTexRefSetAddress2D tex desc dptr (toSizeTv pitch.val) w

/-- Legacy `cuDeviceTotalMem` from `stubs.c`. -/
def cuDeviceTotalMem {W : Type} (V : Vendor W) (bytes : CPtr) (dev : CUdevice)
    (w : W) : CUresult × W :=
  V.cuDeviceTotalMem_v2 bytes dev w

/-- Legacy `cuCtxCreate` from `stubs.c`. -/
def cuCtxCreate {W : Type} (V : Vendor W) (pctx : CPtr) (flags : c_unsigned)
    (dev : CUdevice) (w : W) : CUresult × W :=
  V.cuCtxCreate_v2 pctx flags dev w

/-- Legacy `cuModuleGetGlobal` from `stubs.c`. -/
def cuModuleGetGlobal {W : Type} (V : Vendor W) (dptr : CPtr) (bytes : CPtr)
    (hmod : CUmodule) (name : CPtr) (w : W) : CUresult × W :=
  V.cuModuleGetGlobal_v2 dptr bytes hmod name w

/-- Legacy `cuMemAlloc` from `stubs.c`; the `unsigned int bytesize` is
widened to the `size_t` parameter of `cuMemAlloc_v2`, preserving its
value. -/
def cuMemAlloc {W : Type} (V : Vendor W) (dptr : CPtr) (bytesize : c_unsigned)
    (w : W) : CUresult × W :=
  V.cuMemAlloc_v2 dptr bytesize w

/-- Legacy `cuMemFree` from `stubs.c`. -/
def cuMemFree {W : Type} (V : Vendor W) (dptr : CUdeviceptr)
    (w : W) : CUresult × W :=
  V.cuMemFree_v2 dptr w

/-- Legacy `cuMemHostGetDevicePointer` from `stubs.c`. -/
def cuMemHostGetDevicePointer {W : Type} (V : Vendor W) (pdptr : CPtr)
    (p : CPtr) (Flags : c_unsigned) (w : W) : CUresult × W :=
  V.cuMemHostGetDevicePointer_v2 pdptr p Flags w

/-- Legacy `cuMemcpyHtoD` from `stubs.c`; the `unsigned int ByteCount` is
widened to `size_t`, preserving its value. -/
def cuMemcpyHtoD {W : Type} (V : Vendor W) (dstDevice : CUdeviceptr)
    (srcHost : CPtr) (ByteCount : c_unsigned) (w : W) : CUresult × W :=
  V.cuMemcpyHtoD_v2 dstDevice srcHost ByteCount w

/-- Legacy `cuMemcpyDtoH` from `stubs.c`. -/
def cuMemcpyDtoH {W : Type} (V : Vendor W) (dstHost : CPtr)
    (srcDevice : CUdeviceptr) (ByteCount : c_unsigned) (w : W) : CUresult × W :=
  V.cuMemcpyDtoH_v2 dstHost srcDevice ByteCount w

/-- Legacy `cuMemcpyDtoD` from `stubs.c`. -/
def cuMemcpyDtoD {W : Type} (V : Vendor W) (dstDevice : CUdeviceptr)
    (srcDevice : CUdeviceptr) (ByteCount : c_unsigned) (w : W) : CUresult × W :=
  V.cuMemcpyDtoD_v2 dstDevice srcDevice ByteCount w

/-- Legacy `cuMemcpyHtoDAsync` from `stubs.c`. -/
def cuMemcpyHtoDAsync {W : Type} (V : Vendor W) (dstDevice : CUdeviceptr)
    (srcHost : CPtr) (ByteCount : c_unsigned) (hStream : CUstream)
    (w : W) : CUresult × W :=
  V.cuMemcpyHtoDAsync_v2 dstDevice srcHost ByteCount hStream w

/-- Legacy `cuMemcpyDtoHAsync` from `stubs.c`. -/
def cuMemcpyDtoHAsync {W : Type} (V : Vendor W) (dstHost : CPtr)
    (srcDevice : CUdeviceptr) (ByteCount : c_unsigned) (hStream : CUstream)
    (w : W) : CUresult × W :=
  V.cuMemcpyDtoHAsync_v2 dstHost srcDevice ByteCount hStream w

/-- Legacy `cuMemsetD8` from `stubs.c`. -/
def cuMemsetD8 {W : Type} (V : Vendor W) (dstDevice : CUdeviceptr)
    (uc : c_uchar) (N : c_unsigned) (w : W) : CUresult × W :=
  V.cuMemsetD8_v2 dstDevice uc N w

/-- Legacy `cuMemsetD16` from `stubs.c`. -/
def cuMemsetD16 {W : Type} (V : Vendor W) (dstDevice : CUdeviceptr)
    (us : c_ushort) (N : c_unsigned) (w : W) : CUresult × W :=
  V.cuMemsetD16_v2 dstDevice us N w

/-- Legacy `cuMemsetD32` from `stubs.c`. -/
def cuMemsetD32 {W : Type} (V : Vendor W) (dstDevice : CUdeviceptr)
    (ui : c_unsigned) (N : c_unsigned) (w : W) : CUresult × W :=
  V.cuMemsetD32_v2 dstDevice ui N w

/-- Legacy `cuTexRefSetAddress` from `stubs.c`. -/
def cuTexRefSetAddress {W : Type} (V : Vendor W) (ByteOffset : CPtr)
    (hTexRef : CUtexref) (dptr : CUdeviceptr) (bytes : size_t)
    (w : W) : CUresult × W :=
  V.cuTexRefSetAddress_v2 ByteOffset hTexRef dptr bytes w

/-! ### Concrete vendor instances and integer literals used in proofs -/

/-- A trivial vendor instance: every entry point returns result `0` and
leaves the world unchanged. -/
def trivVendor (W : Type) : Vendor W where
  cudaConfigureCall := fun _ _ _ _ w => (0, w)
  cudaGetErrorString := fun _ w => (0, w)
  cuTexRefSetAddress2D := fun _ _ _ _ w => (0, w)
  cuDeviceTotalMem_v2 := fun _ _ w => (0, w)
  cuCtxCreate_v2 := fun _ _ _ w => (0, w)
  cuModuleGetGlobal_v2 := fun _ _ _ _ w => (0, w)
  cuMemAlloc_v2 := fun _ _ w => (0, w)
  cuMemFree_v2 := fun _ w => (0, w)
  cuMemHostGetDevicePointer_v2 := fun _ _ _ w => (0, w)
  cuMemcpyHtoD_v2 := fun _ _ _ w => (0, w)
  cuMemcpyDtoH_v2 := fun _ _ _ w => (0, w)
  cuMemcpyDtoD_v2 := fun _ _ _ w => (0, w)
  cuMemcpyHtoDAsync_v2 := fun _ _ _ _ w => (0, w)
  cuMemcpyDtoHAsync_v2 := fun _ _ _ _ w => (0, w)
  cuMemsetD8_v2 := fun _ _ _ w => (0, w)
  cuMemsetD16_v2 := fun _ _ _ w => (0, w)
  cuMemsetD32_v2 := fun _ _ _ w => (0, w)
  cuTexRefSetAddress_v2 := fun _ _ _ _ w => (0, w)

/-- A vendor instance whose `cudaConfigureCall` reports the `x` field of
the grid dimension it receives. -/
def probeGridVendor : Vendor Unit :=
  { trivVendor Unit with cudaConfigureCall := fun g _ _ _ w => (g.x, w) }

/-- A vendor instance whose `cuTexRefSetAddress2D` reports the
`NumChannels` field of the descriptor it receives. -/
def probeDescVendor : Vendor Unit :=
  { trivVendor Unit with cuTexRefSetAddress2D := fun _ d _ _ w => (d.NumChannels, w) }

/-- A vendor instance over a call-counter world: every entry point
increments the counter by one. -/
def countVendor : Vendor Nat where
  cudaConfigureCall := fun _ _ _ _ w => (0, w + 1)
  cudaGetErrorString := fun _ w => (0, w + 1)
  cuTexRefSetAddress2D := fun _ _ _ _ w => (0, w + 1)
  cuDeviceTotalMem_v2 := fun _ _ w => (0, w + 1)
  cuCtxCreate_v2 := fun _ _ _ w => (0, w + 1)
  cuModuleGetGlobal_v2 := fun _ _ _ _ w => (0, w + 1)
  cuMemAlloc_v2 := fun _ _ w => (0, w + 1)
  cuMemFree_v2 := fun _ w => (0, w + 1)
  cuMemHostGetDevicePointer_v2 := fun _ _ _ w => (0, w + 1)
  cuMemcpyHtoD_v2 := fun _ _ _ w => (0, w + 1)
  cuMemcpyDtoH_v2 := fun _ _ _ w => (0, w + 1)
  cuMemcpyDtoD_v2 := fun _ _ _ w => (0, w + 1)
  cuMemcpyHtoDAsync_v2 := fun _ _ _ _ w => (0, w + 1)
  cuMemcpyDtoHAsync_v2 := fun _ _ _ _ w => (0, w + 1)
  cuMemsetD8_v2 := fun _ _ _ w => (0, w + 1)
  cuMemsetD16_v2 := fun _ _ _ w => (0, w + 1)
  cuMemsetD32_v2 := fun _ _ _ w => (0, w + 1)
  cuTexRefSetAddress_v2 := fun _ _ _ _ w => (0, w + 1)

/-- The C `int` value `0`. -/
def cint0 : CInt := ⟨0, by decide, by decide⟩

/-- The C `int` value `1`. -/
def cint1 : CInt := ⟨1, by decide, by decide⟩

/-- The C `int` value `2`. -/
def cint2 : CInt := ⟨2, by decide, by decide⟩

/-- The C `int` value `3`. -/
def cint3 : CInt := ⟨3, by decide, by decide⟩

/-- The C `int` value `4`. -/
def cint4 : CInt := ⟨4, by decide, by decide⟩

/-- The C `int` value `5`. -/
def cint5 : CInt := ⟨5, by decide, by decide⟩

/-- The C `int` value `-1`. -/
def cintNeg1 : CInt := ⟨-1, by decide, by decide⟩

/-- Converting a nonnegative in-range `int` value to `unsigned int`
preserves its numeric value. -/
theorem toUInt32v_eq_of_nonneg (x : Int) (h0 : 0 ≤ x) (h1 : x < 4294967296) :
    (toUInt32v x : Int) = x := by
  unfold toUInt32v
  omega

/-- Converting a nonnegative in-range `int` value to `size_t` preserves
its numeric value. -/
theorem toSizeTv_eq_of_nonneg (x : Int) (h0 : 0 ≤ x)
    (h1 : x < 18446744073709551616) : (toSizeTv x : Int) = x := by
  unfold toSizeTv
  omega

/-! ### Claim theorems -/

/-- C1: for every shim function in `stubs.c` and all valid inputs, the
value the shim returns (result and successor driver state) equals the
value obtained by calling the underlying vendor function directly with
the equivalent expanded arguments, the vendor functions being treated as
uninterpreted functions. -/
theorem C1_shim_pass_through (W : Type) (V : Vendor W) :
    (∀ gx gy bx by_ bz sharedMem stream w,
        cudaConfigureCallSimple V gx gy bx by_ bz sharedMem stream w =
          V.cudaConfigureCall ⟨toUInt32v gx.val, toUInt32v gy.val, 1⟩
            ⟨toUInt32v bx.val, toUInt32v by_.val, toUInt32v bz.val⟩
            sharedMem stream w)
  ∧ (∀ error w,
        cudaGetErrorStringWrapper V error w = V.cudaGetErrorString error w)
  ∧ (∀ tex fmt chn dptr width height pitch w,
        cuTexRefSetAddress2DSimple V tex fmt chn dptr width height pitch w =
          V.cuTexRefSetAddress2D tex
            ⟨fmt, toUInt32v chn.val, toSizeTv width.val, toSizeTv height.val⟩
            dptr (toSizeTv pitch.val) w)
  ∧ (∀ bytes dev w,
        cuDeviceTotalMem V bytes dev w = V.cuDeviceTotalMem_v2 bytes dev w)
  ∧ (∀ pctx flags dev w,
        cuCtxCreate V pctx flags dev w = V.cuCtxCreate_v2 pctx flags dev w)
  ∧ (∀ dptr bytes hmod name w,
        cuModuleGetGlobal V dptr bytes hmod name w =
          V.cuModuleGetGlobal_v2 dptr bytes hmod name w)
  ∧ (∀ dptr bytesize w,
        cuMemAlloc V dptr bytesize w = V.cuMemAlloc_v2 dptr bytesize w)
  ∧ (∀ dptr w, cuMemFree V dptr w = V.cuMemFree_v2 dptr w)
  ∧ (∀ pdptr p Flags w,
        cuMemHostGetDevicePointer V pdptr p Flags w =
          V.cuMemHostGetDevicePointer_v2 pdptr p Flags w)
  ∧ (∀ dstDevice srcHost ByteCount w,
        cuMemcpyHtoD V dstDevice srcHost ByteCount w =
          V.cuMemcpyHtoD_v2 dstDevice srcHost ByteCount w)
  ∧ (∀ dstHost srcDevice ByteCount w,
        cuMemcpyDtoH V dstHost srcDevice ByteCount w =
          V.cuMemcpyDtoH_v2 dstHost srcDevice ByteCount w)
  ∧ (∀ dstDevice srcDevice ByteCount w,
        cuMemcpyDtoD V dstDevice srcDevice ByteCount w =
          V.cuMemcpyDtoD_v2 dstDevice srcDevice ByteCount w)
  ∧ (∀ dstDevice srcHost ByteCount hStream w,
        cuMemcpyHtoDAsync V dstDevice srcHost ByteCount hStream w =
          V.cuMemcpyHtoDAsync_v2 dstDevice srcHost ByteCount hStream w)
  ∧ (∀ dstHost srcDevice ByteCount hStream w,
        cuMemcpyDtoHAsync V dstHost srcDevice ByteCount hStream w =
          V.cuMemcpyDtoHAsync_v2 dstHost srcDevice ByteCount hStream w)
  ∧ (∀ dstDevice uc N w,
        cuMemsetD8 V dstDevice uc N w = V.cuMemsetD8_v2 dstDevice uc N w)
  ∧ (∀ dstDevice us N w,
        cuMemsetD16 V dstDevice us N w = V.cuMemsetD16_v2 dstDevice us N w)
  ∧ (∀ dstDevice ui N w,
        cuMemsetD32 V dstDevice ui N w = V.cuMemsetD32_v2 dstDevice ui N w)
  ∧ (∀ ByteOffset hTexRef dptr bytes w,
        cuTexRefSetAddress V ByteOffset hTexRef dptr bytes w =
          V.cuTexRefSetAddress_v2 ByteOffset hTexRef dptr bytes w) := by
  refine ⟨?_, ?_, ?_, ?_, ?_, ?_, ?_, ?_, ?_, ?_, ?_, ?_, ?_, ?_, ?_, ?_, ?_, ?_⟩ <;>
    (intros; rfl)

/-- C4: every legacy-named entry point defined in `stubs.c` returns, for
every input, exactly the result of its versioned `_v2` counterpart
applied to the same arguments in the same order. -/
theorem C4_legacy_forwards_to_v2 (W : Type) (V : Vendor W) :
    (∀ bytes dev w,
        cuDeviceTotalMem V bytes dev w = V.cuDeviceTotalMem_v2 bytes dev w)
  ∧ (∀ pctx flags dev w,
        cuCtxCreate V pctx flags dev w = V.cuCtxCreate_v2 pctx flags dev w)
  ∧ (∀ dptr bytes hmod name w,
        cuModuleGetGlobal V dptr bytes hmod name w =
          V.cuModuleGetGlobal_v2 dptr bytes hmod name w)
  ∧ (∀ dptr bytesize w,
        cuMemAlloc V dptr bytesize w = V.cuMemAlloc_v2 dptr bytesize w)
  ∧ (∀ dptr w, cuMemFree V dptr w = V.cuMemFree_v2 dptr w)
  ∧ (∀ pdptr p Flags w,
        cuMemHostGetDevicePointer V pdptr p Flags w =
          V.cuMemHostGetDevicePointer_v2 pdptr p Flags w)
  ∧ (∀ dstDevice srcHost ByteCount w,
        cuMemcpyHtoD V dstDevice srcHost ByteCount w =
          V.cuMemcpyHtoD_v2 dstDevice srcHost ByteCount w)
  ∧ (∀ dstHost srcDevice ByteCount w,
        cuMemcpyDtoH V dstHost srcDevice ByteCount w =
          V.cuMemcpyDtoH_v2 dstHost srcDevice ByteCount w)
  ∧ (∀ dstDevice srcDevice ByteCount w,
        cuMemcpyDtoD V dstDevice srcDevice ByteCount w =
          V.cuMemcpyDtoD_v2 dstDevice srcDevice ByteCount w)
  ∧ (∀ dstDevice srcHost ByteCount hStream w,
        cuMemcpyHtoDAsync V dstDevice srcHost ByteCount hStream w =
          V.cuMemcpyHtoDAsync_v2 dstDevice srcHost ByteCount hStream w)
  ∧ (∀ dstHost srcDevice ByteCount hStream w,
        cuMemcpyDtoHAsync V dstHost srcDevice ByteCount hStream w =
          V.cuMemcpyDtoHAsync_v2 dstHost srcDevice ByteCount hStream w)
  ∧ (∀ dstDevice uc N w,
        cuMemsetD8 V dstDevice uc N w = V.cuMemsetD8_v2 dstDevice uc N w)
  ∧ (∀ dstDevice us N w,
        cuMemsetD16 V dstDevice us N w = V.cuMemsetD16_v2 dstDevice us N w)
  ∧ (∀ dstDevice ui N w,
        cuMemsetD32 V dstDevice ui N w = V.cuMemsetD32_v2 dstDevice ui N w)
  ∧ (∀ ByteOffset hTexRef dptr bytes w,
        cuTexRefSetAddress V ByteOffset hTexRef dptr bytes w =
          V.cuTexRefSetAddress_v2 ByteOffset hTexRef dptr bytes w) := by
  refine ⟨?_, ?_, ?_, ?_, ?_, ?_, ?_, ?_, ?_, ?_, ?_, ?_, ?_, ?_, ?_⟩ <;>
    (intros; rfl)

/-- C6: for every error code, `cudaGetErrorStringWrapper error` returns
exactly `cudaGetErrorString error` of the vendor library, with the error
argument passed through unmodified and the returned string pointer (and
driver state) unmodified. -/
theorem C6_error_string_pass_through (W : Type) (V : Vendor W)
    (error : cudaError_t) (w : W) :
    cudaGetErrorStringWrapper V error w = V.cudaGetErrorString error w := rfl

/-- C8: for every input to `cudaConfigureCallSimple`, the `z` component
of the grid dimension passed to `cudaConfigureCall` is the constant `1`,
regardless of `gx` and `gy`. -/
theorem C8_grid_z_is_one (gx gy bx by_ bz : CInt) (sharedMem : size_t)
    (stream : cudaStream_t) :
    ∃ g b : dim3,
      (∀ (W : Type) (V : Vendor W) (w : W),
        cudaConfigureCallSimple V gx gy bx by_ bz sharedMem stream w =
          V.cudaConfigureCall g b sharedMem stream w)
      ∧ g.z = 1 :=
  ⟨⟨toUInt32v gx.val, toUInt32v gy.val, 1⟩,
   ⟨toUInt32v bx.val, toUInt32v by_.val, toUInt32v bz.val⟩,
   fun _ _ _ => rfl, rfl⟩

/-- C2 (counterexample): at `gx = -1` (all other arguments `0`) there are
no `dim3` values `g`, `b` through which `cudaConfigureCallSimple`
forwards to `cudaConfigureCall` with `g.x` equal to `gx`: the C
conversion of the negative `int` to the unsigned `dim3.x` field yields
`2^32 - 1`, not `-1`. -/
theorem C2_counterexample_negative_gx :
    ¬ ∃ g b : dim3,
      (∀ (W : Type) (V : Vendor W) (w : W),
        cudaConfigureCallSimple V cintNeg1 cint0 cint0 cint0 cint0 0 0 w =
          V.cudaConfigureCall g b 0 0 w)
      ∧ (g.x : Int) = cintNeg1.val ∧ (g.y : Int) = cint0.val ∧ g.z = 1
      ∧ (b.x : Int) = cint0.val ∧ (b.y : Int) = cint0.val
      ∧ (b.z : Int) = cint0.val := by
  rintro ⟨g, b, hall, hx, -⟩
  have h : toUInt32v cintNeg1.val = g.x :=
    congrArg Prod.fst (hall Unit probeGridVendor ())
  have hv : toUInt32v cintNeg1.val = 4294967295 := by decide
  have hneg : cintNeg1.val = -1 := rfl
  rw [hv] at h
  rw [hneg] at hx
  omega

/-- C2 (amended): provided `gx`, `gy`, `bx`, `by`, `bz` are nonnegative,
`cudaConfigureCallSimple` returns exactly
`cudaConfigureCall gridDim blockDim sharedMem stream` where `gridDim` has
`x = gx`, `y = gy`, `z = 1` and `blockDim` has `x = bx`, `y = by`,
`z = bz`. -/
theorem C2_amended_configure_call (gx gy bx by_ bz : CInt)
    (sharedMem : size_t) (stream : cudaStream_t)
    (hgx : 0 ≤ gx.val) (hgy : 0 ≤ gy.val) (hbx : 0 ≤ bx.val)
    (hby : 0 ≤ by_.val) (hbz : 0 ≤ bz.val) :
    ∃ g b : dim3,
      (∀ (W : Type) (V : Vendor W) (w : W),
        cudaConfigureCallSimple V gx gy bx by_ bz sharedMem stream w =
          V.cudaConfigureCall g b sharedMem stream w)
      ∧ (g.x : Int) = gx.val ∧ (g.y : Int) = gy.val ∧ g.z = 1
      ∧ (b.x : Int) = bx.val ∧ (b.y : Int) = by_.val
      ∧ (b.z : Int) = bz.val := by
  refine ⟨⟨toUInt32v gx.val, toUInt32v gy.val, 1⟩,
    ⟨toUInt32v bx.val, toUInt32v by_.val, toUInt32v bz.val⟩,
    fun _ _ _ => rfl, ?_, ?_, rfl, ?_, ?_, ?_⟩
  · exact toUInt32v_eq_of_nonneg gx.val hgx (by have := gx.upper; omega)
  · exact toUInt32v_eq_of_nonneg gy.val hgy (by have := gy.upper; omega)
  · exact toUInt32v_eq_of_nonneg bx.val hbx (by have := bx.upper; omega)
  · exact toUInt32v_eq_of_nonneg by_.val hby (by have := by_.upper; omega)
  · exact toUInt32v_eq_of_nonneg bz.val hbz (by have := bz.upper; omega)

/-- C2 (witness): the amended claim holds at the concrete input
`gx = 1, gy = 2, bx = 3, by = 4, bz = 5, sharedMem = 6, stream = 7`. -/
theorem C2_amended_witness :
    ∃ g b : dim3,
      (∀ (W : Type) (V : Vendor W) (w : W),
        cudaConfigureCallSimple V cint1 cint2 cint3 cint4 cint5 6 7 w =
          V.cudaConfigureCall g b 6 7 w)
      ∧ (g.x : Int) = cint1.val ∧ (g.y : Int) = cint2.val ∧ g.z = 1
      ∧ (b.x : Int) = cint3.val ∧ (b.y : Int) = cint4.val
      ∧ (b.z : Int) = cint5.val :=
  C2_amended_configure_call cint1 cint2 cint3 cint4 cint5 6 7
    (by decide) (by decide) (by decide) (by decide) (by decide)

/-- C3 (counterexample): at `chn = -1` (all other arguments `0`) there is
no descriptor `desc` and pitch value `p` through which
`cuTexRefSetAddress2DSimple` forwards to `cuTexRefSetAddress2D` with
`desc.NumChannels` equal to `chn`: the C conversion of the negative `int`
to the unsigned `NumChannels` field yields `2^32 - 1`, not `-1`. -/
theorem C3_counterexample_negative_chn :
    ¬ ∃ (desc : CUDA_ARRAY_DESCRIPTOR) (p : size_t),
      (∀ (W : Type) (V : Vendor W) (w : W),
        cuTexRefSetAddress2DSimple V 0 0 cintNeg1 0 cint0 cint0 cint0 w =
          V.cuTexRefSetAddress2D 0 desc 0 p w)
      ∧ desc.Format = 0 ∧ (desc.NumChannels : Int) = cintNeg1.val
      ∧ (desc.Width : Int) = cint0.val ∧ (desc.Height : Int) = cint0.val
      ∧ (p : Int) = cint0.val := by
  rintro ⟨desc, p, hall, -, hchn, -⟩
  have h : toUInt32v cintNeg1.val = desc.NumChannels :=
    congrArg Prod.fst (hall Unit probeDescVendor ())
  have hv : toUInt32v cintNeg1.val = 4294967295 := by decide
  have hneg : cintNeg1.val = -1 := rfl
  rw [hv] at h
  rw [hneg] at hchn
  omega

/-- C3 (amended): provided `chn`, `width`, `height` and `pitch` are
nonnegative, `cuTexRefSetAddress2DSimple` returns exactly
`cuTexRefSetAddress2D tex desc dptr pitch` where `desc` is a
`CUDA_ARRAY_DESCRIPTOR` whose `Format` equals `fmt`, `NumChannels` equals
`chn`, `Width` equals `width` and `Height` equals `height`. -/
theorem C3_amended_texref_set_address_2d (tex : CUtexref)
    (fmt : CUarray_format) (chn : CInt) (dptr : CUdeviceptr)
    (width height pitch : CInt)
    (hchn : 0 ≤ chn.val) (hw : 0 ≤ width.val) (hh : 0 ≤ height.val)
    (hp : 0 ≤ pitch.val) :
    ∃ (desc : CUDA_ARRAY_DESCRIPTOR) (p : size_t),
      (∀ (W : Type) (V : Vendor W) (w : W),
        cuTexRefSetAddress2DSimple V tex fmt chn dptr width height pitch w =
          V.cuTexRefSetAddress2D tex desc dptr p w)
      ∧ desc.Format = fmt ∧ (desc.NumChannels : Int) = chn.val
      ∧ (desc.Width : Int) = width.val ∧ (desc.Height : Int) = height.val
      ∧ (p : Int) = pitch.val := by
  refine ⟨⟨fmt, toUInt32v chn.val, toSizeTv width.val, toSizeTv height.val⟩,
    toSizeTv pitch.val, fun _ _ _ => rfl, rfl, ?_, ?_, ?_, ?_⟩
  · exact toUInt32v_eq_of_nonneg chn.val hchn (by have := chn.upper; omega)
  · exact toSizeTv_eq_of_nonneg width.val hw (by have := width.upper; omega)
  · exact toSizeTv_eq_of_nonneg height.val hh (by have := height.upper; omega)
  · exact toSizeTv_eq_of_nonneg pitch.val hp (by have := pitch.upper; omega)

/-- C3 (witness): the amended claim holds at the concrete input
`tex = 8, fmt = 9, chn = 1, dptr = 10, width = 2, height = 3,
pitch = 4`. -/
theorem C3_amended_witness :
    ∃ (desc : CUDA_ARRAY_DESCRIPTOR) (p : size_t),
      (∀ (W : Type) (V : Vendor W) (w : W),
        cuTexRefSetAddress2DSimple V 8 9 cint1 10 cint2 cint3 cint4 w =
          V.cuTexRefSetAddress2D 8 desc 10 p w)
      ∧ desc.Format = 9 ∧ (desc.NumChannels : Int) = cint1.val
      ∧ (desc.Width : Int) = cint2.val ∧ (desc.Height : Int) = cint3.val
      ∧ (p : Int) = cint4.val :=
  C3_amended_texref_set_address_2d 8 9 cint1 10 cint2 cint3 cint4
    (by decide) (by decide) (by decide) (by decide)

/-- C5: for every shim function and every input, the result the shim
returns is exactly the result produced by the wrapped vendor call: no
result value is translated, reclassified, remapped or replaced, and no
shim introduces a result of its own. -/
theorem C5_result_codes_verbatim (W : Type) (V : Vendor W) :
    (∀ gx gy bx by_ bz sharedMem stream w,
        (cudaConfigureCallSimple V gx gy bx by_ bz sharedMem stream w).1 =
          (V.cudaConfigureCall ⟨toUInt32v gx.val, toUInt32v gy.val, 1⟩
            ⟨toUInt32v bx.val, toUInt32v by_.val, toUInt32v bz.val⟩
            sharedMem stream w).1)
  ∧ (∀ error w,
        (cudaGetErrorStringWrapper V error w).1 =
          (V.cudaGetErrorString error w).1)
  ∧ (∀ tex fmt chn dptr width height pitch w,
        (cuTexRefSetAddress2DSimple V tex fmt chn dptr width height pitch w).1 =
          (V.cuTexRefSetAddress2D tex
            ⟨fmt, toUInt32v chn.val, toSizeTv width.val, toSizeTv height.val⟩
            dptr (toSizeTv pitch.val) w).1)
  ∧ (∀ bytes dev w,
        (cuDeviceTotalMem V bytes dev w).1 =
          (V.cuDeviceTotalMem_v2 bytes dev w).1)
  ∧ (∀ pctx flags dev w,
        (cuCtxCreate V pctx flags dev w).1 =
          (V.cuCtxCreate_v2 pctx flags dev w).1)
  ∧ (∀ dptr bytes hmod name w,
        (cuModuleGetGlobal V dptr bytes hmod name w).1 =
          (V.cuModuleGetGlobal_v2 dptr bytes hmod name w).1)
  ∧ (∀ dptr bytesize w,
        (cuMemAlloc V dptr bytesize w).1 =
          (V.cuMemAlloc_v2 dptr bytesize w).1)
  ∧ (∀ dptr w, (cuMemFree V dptr w).1 = (V.cuMemFree_v2 dptr w).1)
  ∧ (∀ pdptr p Flags w,
        (cuMemHostGetDevicePointer V pdptr p Flags w).1 =
          (V.cuMemHostGetDevicePointer_v2 pdptr p Flags w).1)
  ∧ (∀ dstDevice srcHost ByteCount w,
        (cuMemcpyHtoD V dstDevice srcHost ByteCount w).1 =
          (V.cuMemcpyHtoD_v2 dstDevice srcHost ByteCount w).1)
  ∧ (∀ dstHost srcDevice ByteCount w,
        (cuMemcpyDtoH V dstHost srcDevice ByteCount w).1 =
          (V.cuMemcpyDtoH_v2 dstHost srcDevice ByteCount w).1)
  ∧ (∀ dstDevice srcDevice ByteCount w,
        (cuMemcpyDtoD V dstDevice srcDevice ByteCount w).1 =
          (V.cuMemcpyDtoD_v2 dstDevice srcDevice ByteCount w).1)
  ∧ (∀ dstDevice srcHost ByteCount hStream w,
        (cuMemcpyHtoDAsync V dstDevice srcHost ByteCount hStream w).1 =
          (V.cuMemcpyHtoDAsync_v2 dstDevice srcHost ByteCount hStream w).1)
  ∧ (∀ dstHost srcDevice ByteCount hStream w,
        (cuMemcpyDtoHAsync V dstHost srcDevice ByteCount hStream w).1 =
          (V.cuMemcpyDtoHAsync_v2 dstHost srcDevice ByteCount hStream w).1)
  ∧ (∀ dstDevice uc N w,
        (cuMemsetD8 V dstDevice uc N w).1 =
          (V.cuMemsetD8_v2 dstDevice uc N w).1)
  ∧ (∀ dstDevice us N w,
        (cuMemsetD16 V dstDevice us N w).1 =
          (V.cuMemsetD16_v2 dstDevice us N w).1)
  ∧ (∀ dstDevice ui N w,
        (cuMemsetD32 V dstDevice ui N w).1 =
          (V.cuMemsetD32_v2 dstDevice ui N w).1)
  ∧ (∀ ByteOffset hTexRef dptr bytes w,
        (cuTexRefSetAddress V ByteOffset hTexRef dptr bytes w).1 =
          (V.cuTexRefSetAddress_v2 ByteOffset hTexRef dptr bytes w).1) := by
  refine ⟨?_, ?_, ?_, ?_, ?_, ?_, ?_, ?_, ?_, ?_, ?_, ?_, ?_, ?_, ?_, ?_, ?_, ?_⟩ <;>
    (intros; rfl)

/-- C7: no shim branches, retries or manages any resource: under the
call-counting vendor each shim performs exactly one vendor invocation
(first block), and for every vendor the driver state a shim leaves behind
is exactly the state left by that single forwarded call (second block). -/
theorem C7_single_vendor_call (W : Type) (V : Vendor W) :
    ((∀ gx gy bx by_ bz sharedMem stream (w : Nat),
        (cudaConfigureCallSimple countVendor gx gy bx by_ bz sharedMem stream w).2 = w + 1)
    ∧ (∀ error (w : Nat), (cudaGetErrorStringWrapper countVendor error w).2 = w + 1)
    ∧ (∀ tex fmt chn dptr width height pitch (w : Nat),
        (cuTexRefSetAddress2DSimple countVendor tex fmt chn dptr width height pitch w).2 = w + 1)
    ∧ (∀ bytes dev (w : Nat), (cuDeviceTotalMem countVendor bytes dev w).2 = w + 1)
    ∧ (∀ pctx flags dev (w : Nat), (cuCtxCreate countVendor pctx flags dev w).2 = w + 1)
    ∧ (∀ dptr bytes hmod name (w : Nat),
        (cuModuleGetGlobal countVendor dptr bytes hmod name w).2 = w + 1)
    ∧ (∀ dptr bytesize (w : Nat), (cuMemAlloc countVendor dptr bytesize w).2 = w + 1)
    ∧ (∀ dptr (w : Nat), (cuMemFree countVendor dptr w).2 = w + 1)
    ∧ (∀ pdptr p Flags (w : Nat),
        (cuMemHostGetDevicePointer countVendor pdptr p Flags w).2 = w + 1)
    ∧ (∀ dstDevice srcHost ByteCount (w : Nat),
        (cuMemcpyHtoD countVendor dstDevice srcHost ByteCount w).2 = w + 1)
    ∧ (∀ dstHost srcDevice ByteCount (w : Nat),
        (cuMemcpyDtoH countVendor dstHost srcDevice ByteCount w).2 = w + 1)
    ∧ (∀ dstDevice srcDevice ByteCount (w : Nat),
        (cuMemcpyDtoD countVendor dstDevice srcDevice ByteCount w).2 = w + 1)
    ∧ (∀ dstDevice srcHost ByteCount hStream (w : Nat),
        (cuMemcpyHtoDAsync countVendor dstDevice srcHost ByteCount hStream w).2 = w + 1)
    ∧ (∀ dstHost srcDevice ByteCount hStream (w : Nat),
        (cuMemcpyDtoHAsync countVendor dstHost srcDevice ByteCount hStream w).2 = w + 1)
    ∧ (∀ dstDevice uc N (w : Nat), (cuMemsetD8 countVendor dstDevice uc N w).2 = w + 1)
    ∧ (∀ dstDevice us N (w : Nat), (cuMemsetD16 countVendor dstDevice us N w).2 = w + 1)
    ∧ (∀ dstDevice ui N (w : Nat), (cuMemsetD32 countVendor dstDevice ui N w).2 = w + 1)
    ∧ (∀ ByteOffset hTexRef dptr bytes (w : Nat),
        (cuTexRefSetAddress countVendor ByteOffset hTexRef dptr bytes w).2 = w + 1))
  ∧ ((∀ gx gy bx by_ bz sharedMem stream (w : W),
        (cudaConfigureCallSimple V gx gy bx by_ bz sharedMem stream w).2 =
          (V.cudaConfigureCall ⟨toUInt32v gx.val, toUInt32v gy.val, 1⟩
            ⟨toUInt32v bx.val, toUInt32v by_.val, toUInt32v bz.val⟩
            sharedMem stream w).2)
    ∧ (∀ error (w : W),
        (cudaGetErrorStringWrapper V error w).2 =
          (V.cudaGetErrorString error w).2)
    ∧ (∀ tex fmt chn dptr width height pitch (w : W),
        (cuTexRefSetAddress2DSimple V tex fmt chn dptr width height pitch w).2 =
          (V.cuTexRefSetAddress2D tex
            ⟨fmt, toUInt32v chn.val, toSizeTv width.val, toSizeTv height.val⟩
            dptr (toSizeTv pitch.val) w).2)
    ∧ (∀ bytes dev (w : W),
        (cuDeviceTotalMem V bytes dev w).2 = (V.cuDeviceTotalMem_v2 bytes dev w).2)
    ∧ (∀ pctx flags dev (w : W),
        (cuCtxCreate V pctx flags dev w).2 = (V.cuCtxCreate_v2 pctx flags dev w).2)
    ∧ (∀ dptr bytes hmod name (w : W),
        (cuModuleGetGlobal V dptr bytes hmod name w).2 =
          (V.cuModuleGetGlobal_v2 dptr bytes hmod name w).2)
    ∧ (∀ dptr bytesize (w : W),
        (cuMemAlloc V dptr bytesize w).2 = (V.cuMemAlloc_v2 dptr bytesize w).2)
    ∧ (∀ dptr (w : W), (cuMemFree V dptr w).2 = (V.cuMemFree_v2 dptr w).2)
    ∧ (∀ pdptr p Flags (w : W),
        (cuMemHostGetDevicePointer V pdptr p Flags w).2 =
          (V.cuMemHostGetDevicePointer_v2 pdptr p Flags w).2)
    ∧ (∀ dstDevice srcHost ByteCount (w : W),
        (cuMemcpyHtoD V dstDevice srcHost ByteCount w).2 =
          (V.cuMemcpyHtoD_v2 dstDevice srcHost ByteCount w).2)
    ∧ (∀ dstHost srcDevice ByteCount (w : W),
        (cuMemcpyDtoH V dstHost srcDevice ByteCount w).2 =
          (V.cuMemcpyDtoH_v2 dstHost srcDevice ByteCount w).2)
    ∧ (∀ dstDevice srcDevice ByteCount (w : W),
        (cuMemcpyDtoD V dstDevice srcDevice ByteCount w).2 =
          (V.cuMemcpyDtoD_v2 dstDevice srcDevice ByteCount w).2)
    ∧ (∀ dstDevice srcHost ByteCount hStream (w : W),
        (cuMemcpyHtoDAsync V dstDevice srcHost ByteCount hStream w).2 =
          (V.cuMemcpyHtoDAsync_v2 dstDevice srcHost ByteCount hStream w).2)
    ∧ (∀ dstHost srcDevice ByteCount hStream (w : W),
        (cuMemcpyDtoHAsync V dstHost srcDevice ByteCount hStream w).2 =
          (V.cuMemcpyDtoHAsync_v2 dstHost srcDevice ByteCount hStream w).2)
    ∧ (∀ dstDevice uc N (w : W),
        (cuMemsetD8 V dstDevice uc N w).2 = (V.cuMemsetD8_v2 dstDevice uc N w).2)
    ∧ (∀ dstDevice us N (w : W),
        (cuMemsetD16 V dstDevice us N w).2 = (V.cuMemsetD16_v2 dstDevice us N w).2)
    ∧ (∀ dstDevice ui N (w : W),
        (cuMemsetD32 V dstDevice ui N w).2 = (V.cuMemsetD32_v2 dstDevice ui N w).2)
    ∧ (∀ ByteOffset hTexRef dptr bytes (w : W),
        (cuTexRefSetAddress V ByteOffset hTexRef dptr bytes w).2 =
          (V.cuTexRefSetAddress_v2 ByteOffset hTexRef dptr bytes w).2)) := by
  constructor
  · refine ⟨?_, ?_, ?_, ?_, ?_, ?_, ?_, ?_, ?_, ?_, ?_, ?_, ?_, ?_, ?_, ?_, ?_, ?_⟩ <;>
      (intros; rfl)
  · refine ⟨?_, ?_, ?_, ?_, ?_, ?_, ?_, ?_, ?_, ?_, ?_, ?_, ?_, ?_, ?_, ?_, ?_, ?_⟩ <;>
      (intros; rfl)

/-- C9: whenever a shim converts an argument to a wider or
differently-signed vendor parameter type, the numeric value received by
the vendor function equals the value the caller supplied, provided the
supplied value is nonnegative: the `int` arguments `chn`, `width`,
`height` (and `pitch`) of `cuTexRefSetAddress2DSimple` stored into the
unsigned descriptor fields and `size_t` pitch, and the `unsigned int`
byte counts passed on to the `size_t` parameters of the `_v2`
functions. -/
theorem C9_conversions_preserve_values (tex : CUtexref)
    (fmt : CUarray_format) (chn : CInt) (dptr : CUdeviceptr)
    (width height pitch : CInt)
    (hchn : 0 ≤ chn.val) (hw : 0 ≤ width.val) (hh : 0 ≤ height.val)
    (hp : 0 ≤ pitch.val) :
    (∃ (desc : CUDA_ARRAY_DESCRIPTOR) (p : size_t),
      (∀ (W : Type) (V : Vendor W) (w : W),
        cuTexRefSetAddress2DSimple V tex fmt chn dptr width height pitch w =
          V.cuTexRefSetAddress2D tex desc dptr p w)
      ∧ (desc.NumChannels : Int) = chn.val
      ∧ (desc.Width : Int) = width.val ∧ (desc.Height : Int) = height.val
      ∧ (p : Int) = pitch.val)
  ∧ (∀ (W : Type) (V : Vendor W) pd (bytesize : c_unsigned) (w : W),
      cuMemAlloc V pd bytesize w = V.cuMemAlloc_v2 pd bytesize w)
  ∧ (∀ (W : Type) (V : Vendor W) dstDevice srcHost (ByteCount : c_unsigned) (w : W),
      cuMemcpyHtoD V dstDevice srcHost ByteCount w =
        V.cuMemcpyHtoD_v2 dstDevice srcHost ByteCount w)
  ∧ (∀ (W : Type) (V : Vendor W) dstHost srcDevice (ByteCount : c_unsigned) (w : W),
      cuMemcpyDtoH V dstHost srcDevice ByteCount w =
        V.cuMemcpyDtoH_v2 dstHost srcDevice ByteCount w)
  ∧ (∀ (W : Type) (V : Vendor W) dstDevice srcDevice (ByteCount : c_unsigned) (w : W),
      cuMemcpyDtoD V dstDevice srcDevice ByteCount w =
        V.cuMemcpyDtoD_v2 dstDevice srcDevice ByteCount w)
  ∧ (∀ (W : Type) (V : Vendor W) dstDevice uc (N : c_unsigned) (w : W),
      cuMemsetD8 V dstDevice uc N w = V.cuMemsetD8_v2 dstDevice uc N w)
  ∧ (∀ (W : Type) (V : Vendor W) dstDevice us (N : c_unsigned) (w : W),
      cuMemsetD16 V dstDevice us N w = V.cuMemsetD16_v2 dstDevice us N w)
  ∧ (∀ (W : Type) (V : Vendor W) dstDevice ui (N : c_unsigned) (w : W),
      cuMemsetD32 V dstDevice ui N w = V.cuMemsetD32_v2 dstDevice ui N w) := by
  refine ⟨⟨⟨fmt, toUInt32v chn.val, toSizeTv width.val, toSizeTv height.val⟩,
      toSizeTv pitch.val, fun _ _ _ => rfl, ?_, ?_, ?_, ?_⟩,
    fun _ _ _ _ _ => rfl, fun _ _ _ _ _ _ => rfl, fun _ _ _ _ _ _ => rfl,
    fun _ _ _ _ _ _ => rfl, fun _ _ _ _ _ _ => rfl, fun _ _ _ _ _ _ => rfl,
    fun _ _ _ _ _ _ => rfl⟩
  · exact toUInt32v_eq_of_nonneg chn.val hchn (by have := chn.upper; omega)
  · exact toSizeTv_eq_of_nonneg width.val hw (by have := width.upper; omega)
  · exact toSizeTv_eq_of_nonneg height.val hh (by have := height.upper; omega)
  · exact toSizeTv_eq_of_nonneg pitch.val hp (by have := pitch.upper; omega)

/-- C9 (witness): the conversion claim holds at the concrete input
`tex = 0, fmt = 0, chn = 1, dptr = 0, width = 2, height = 3,
pitch = 4`. -/
theorem C9_conversions_witness :
    (∃ (desc : CUDA_ARRAY_DESCRIPTOR) (p : size_t),
      (∀ (W : Type) (V : Vendor W) (w : W),
        cuTexRefSetAddress2DSimple V 0 0 cint1 0 cint2 cint3 cint4 w =
          V.cuTexRefSetAddress2D 0 desc 0 p w)
      ∧ (desc.NumChannels : Int) = cint1.val
      ∧ (desc.Width : Int) = cint2.val ∧ (desc.Height : Int) = cint3.val
      ∧ (p : Int) = cint4.val)
  ∧ (∀ (W : Type) (V : Vendor W) pd (bytesize : c_unsigned) (w : W),
      cuMemAlloc V pd bytesize w = V.cuMemAlloc_v2 pd bytesize w)
  ∧ (∀ (W : Type) (V : Vendor W) dstDevice srcHost (ByteCount : c_unsigned) (w : W),
      cuMemcpyHtoD V dstDevice srcHost ByteCount w =
        V.cuMemcpyHtoD_v2 dstDevice srcHost ByteCount w)
  ∧ (∀ (W : Type) (V : Vendor W) dstHost srcDevice (ByteCount : c_unsigned) (w : W),
      cuMemcpyDtoH V dstHost srcDevice ByteCount w =
        V.cuMemcpyDtoH_v2 dstHost srcDevice ByteCount w)
  ∧ (∀ (W : Type) (V : Vendor W) dstDevice srcDevice (ByteCount : c_unsigned) (w : W),
      cuMemcpyDtoD V dstDevice srcDevice ByteCount w =
        V.cuMemcpyDtoD_v2 dstDevice srcDevice ByteCount w)
  ∧ (∀ (W : Type) (V : Vendor W) dstDevice uc (N : c_unsigned) (w : W),
      cuMemsetD8 V dstDevice uc N w = V.cuMemsetD8_v2 dstDevice uc N w)
  ∧ (∀ (W : Type) (V : Vendor W) dstDevice us (N : c_unsigned) (w : W),
      cuMemsetD16 V dstDevice us N w = V.cuMemsetD16_v2 dstDevice us N w)
  ∧ (∀ (W : Type) (V : Vendor W) dstDevice ui (N : c_unsigned) (w : W),
      cuMemsetD32 V dstDevice ui N w = V.cuMemsetD32_v2 dstDevice ui N w) :=
  C9_conversions_preserve_values 0 0 cint1 0 cint2 cint3 cint4
    (by decide) (by decide) (by decide) (by decide)

/-- C10: every shim is deterministic relative to the vendor library: two
vendor instances that agree on the wrapped entry point make the shim
return equal results on equal arguments and equal driver states — a shim
reads no hidden state of its own and depends on nothing but the one
vendor function it forwards to. -/
theorem C10_deterministic_no_hidden_state (W : Type) (V V2 : Vendor W) :
    (V.cudaConfigureCall = V2.cudaConfigureCall →
      ∀ gx gy bx by_ bz sharedMem stream w,
        cudaConfigureCallSimple V gx gy bx by_ bz sharedMem stream w =
          cudaConfigureCallSimple V2 gx gy bx by_ bz sharedMem stream w)
  ∧ (V.cudaGetErrorString = V2.cudaGetErrorString →
      ∀ error w,
        cudaGetErrorStringWrapper V error w = cudaGetErrorStringWrapper V2 error w)
  ∧ (V.cuTexRefSetAddress2D = V2.cuTexRefSetAddress2D →
      ∀ tex fmt chn dptr width height pitch w,
        cuTexRefSetAddress2DSimple V tex fmt chn dptr width height pitch w =
          cuTexRefSetAddress2DSimple V2 tex fmt chn dptr width height pitch w)
  ∧ (V.cuDeviceTotalMem_v2 = V2.cuDeviceTotalMem_v2 →
      ∀ bytes dev w, cuDeviceTotalMem V bytes dev w = cuDeviceTotalMem V2 bytes dev w)
  ∧ (V.cuCtxCreate_v2 = V2.cuCtxCreate_v2 →
      ∀ pctx flags dev w, cuCtxCreate V pctx flags dev w = cuCtxCreate V2 pctx flags dev w)
  ∧ (V.cuModuleGetGlobal_v2 = V2.cuModuleGetGlobal_v2 →
      ∀ dptr bytes hmod name w,
        cuModuleGetGlobal V dptr bytes hmod name w =
          cuModuleGetGlobal V2 dptr bytes hmod name w)
  ∧ (V.cuMemAlloc_v2 = V2.cuMemAlloc_v2 →
      ∀ dptr bytesize w, cuMemAlloc V dptr bytesize w = cuMemAlloc V2 dptr bytesize w)
  ∧ (V.cuMemFree_v2 = V2.cuMemFree_v2 →
      ∀ dptr w, cuMemFree V dptr w = cuMemFree V2 dptr w)
  ∧ (V.cuMemHostGetDevicePointer_v2 = V2.cuMemHostGetDevicePointer_v2 →
      ∀ pdptr p Flags w,
        cuMemHostGetDevicePointer V pdptr p Flags w =
          cuMemHostGetDevicePointer V2 pdptr p Flags w)
  ∧ (V.cuMemcpyHtoD_v2 = V2.cuMemcpyHtoD_v2 →
      ∀ dstDevice srcHost ByteCount w,
        cuMemcpyHtoD V dstDevice srcHost ByteCount w =
          cuMemcpyHtoD V2 dstDevice srcHost ByteCount w)
  ∧ (V.cuMemcpyDtoH_v2 = V2.cuMemcpyDtoH_v2 →
      ∀ dstHost srcDevice ByteCount w,
        cuMemcpyDtoH V dstHost srcDevice ByteCount w =
          cuMemcpyDtoH V2 dstHost srcDevice ByteCount w)
  ∧ (V.cuMemcpyDtoD_v2 = V2.cuMemcpyDtoD_v2 →
      ∀ dstDevice srcDevice ByteCount w,
        cuMemcpyDtoD V dstDevice srcDevice ByteCount w =
          cuMemcpyDtoD V2 dstDevice srcDevice ByteCount w)
  ∧ (V.cuMemcpyHtoDAsync_v2 = V2.cuMemcpyHtoDAsync_v2 →
      ∀ dstDevice srcHost ByteCount hStream w,
        cuMemcpyHtoDAsync V dstDevice srcHost ByteCount hStream w =
          cuMemcpyHtoDAsync V2 dstDevice srcHost ByteCount hStream w)
  ∧ (V.cuMemcpyDtoHAsync_v2 = V2.cuMemcpyDtoHAsync_v2 →
      ∀ dstHost srcDevice ByteCount hStream w,
        cuMemcpyDtoHAsync V dstHost srcDevice ByteCount hStream w =
          cuMemcpyDtoHAsync V2 dstHost srcDevice ByteCount hStream w)
  ∧ (V.cuMemsetD8_v2 = V2.cuMemsetD8_v2 →
      ∀ dstDevice uc N w, cuMemsetD8 V dstDevice uc N w = cuMemsetD8 V2 dstDevice uc N w)
  ∧ (V.cuMemsetD16_v2 = V2.cuMemsetD16_v2 →
      ∀ dstDevice us N w, cuMemsetD16 V dstDevice us N w = cuMemsetD16 V2 dstDevice us N w)
  ∧ (V.cuMemsetD32_v2 = V2.cuMemsetD32_v2 →
      ∀ dstDevice ui N w, cuMemsetD32 V dstDevice ui N w = cuMemsetD32 V2 dstDevice ui N w)
  ∧ (V.cuTexRefSetAddress_v2 = V2.cuTexRefSetAddress_v2 →
      ∀ ByteOffset hTexRef dptr bytes w,
        cuTexRefSetAddress V ByteOffset hTexRef dptr bytes w =
          cuTexRefSetAddress V2 ByteOffset hTexRef dptr bytes w) := by
  refine ⟨?_, ?_, ?_, ?_, ?_, ?_, ?_, ?_, ?_, ?_, ?_, ?_, ?_, ?_, ?_, ?_, ?_, ?_⟩ <;>
    (intro h; intros;
     simp only [cudaConfigureCallSimple, cudaGetErrorStringWrapper,
       cuTexRefSetAddress2DSimple, cuDeviceTotalMem, cuCtxCreate,
       cuModuleGetGlobal, cuMemAlloc, cuMemFree, cuMemHostGetDevicePointer,
       cuMemcpyHtoD, cuMemcpyDtoH, cuMemcpyDtoD, cuMemcpyHtoDAsync,
       cuMemcpyDtoHAsync, cuMemsetD8, cuMemsetD16, cuMemsetD32,
       cuTexRefSetAddress, h])

/-- C10 (witness): the determinism claim applied at the trivial vendor
instance and concrete arguments. -/
theorem C10_deterministic_witness :
    (cudaConfigureCallSimple (trivVendor Unit) cint0 cint0 cint0 cint0 cint0 0 0 () =
       cudaConfigureCallSimple (trivVendor Unit) cint0 cint0 cint0 cint0 cint0 0 0 ())
  ∧ (cudaGetErrorStringWrapper (trivVendor Unit) 0 () =
       cudaGetErrorStringWrapper (trivVendor Unit) 0 ())
  ∧ (cuTexRefSetAddress2DSimple (trivVendor Unit) 0 0 cint0 0 cint0 cint0 cint0 () =
       cuTexRefSetAddress2DSimple (trivVendor Unit) 0 0 cint0 0 cint0 cint0 cint0 ())
  ∧ (cuDeviceTotalMem (trivVendor Unit) 0 0 () = cuDeviceTotalMem (trivVendor Unit) 0 0 ())
  ∧ (cuCtxCreate (trivVendor Unit) 0 0 0 () = cuCtxCreate (trivVendor Unit) 0 0 0 ())
  ∧ (cuModuleGetGlobal (trivVendor Unit) 0 0 0 0 () =
       cuModuleGetGlobal (trivVendor Unit) 0 0 0 0 ())
  ∧ (cuMemAlloc (trivVendor Unit) 0 0 () = cuMemAlloc (trivVendor Unit) 0 0 ())
  ∧ (cuMemFree (trivVendor Unit) 0 () = cuMemFree (trivVendor Unit) 0 ())
  ∧ (cuMemHostGetDevicePointer (trivVendor Unit) 0 0 0 () =
       cuMemHostGetDevicePointer (trivVendor Unit) 0 0 0 ())
  ∧ (cuMemcpyHtoD (trivVendor Unit) 0 0 0 () = cuMemcpyHtoD (trivVendor Unit) 0 0 0 ())
  ∧ (cuMemcpyDtoH (trivVendor Unit) 0 0 0 () = cuMemcpyDtoH (trivVendor Unit) 0 0 0 ())
  ∧ (cuMemcpyDtoD (trivVendor Unit) 0 0 0 () = cuMemcpyDtoD (trivVendor Unit) 0 0 0 ())
  ∧ (cuMemcpyHtoDAsync (trivVendor Unit) 0 0 0 0 () =
       cuMemcpyHtoDAsync (trivVendor Unit) 0 0 0 0 ())
  ∧ (cuMemcpyDtoHAsync (trivVendor Unit) 0 0 0 0 () =
       cuMemcpyDtoHAsync (trivVendor Unit) 0 0 0 0 ())
  ∧ (cuMemsetD8 (trivVendor Unit) 0 0 0 () = cuMemsetD8 (trivVendor Unit) 0 0 0 ())
  ∧ (cuMemsetD16 (trivVendor Unit) 0 0 0 () = cuMemsetD16 (trivVendor Unit) 0 0 0 ())
  ∧ (cuMemsetD32 (trivVendor Unit) 0 0 0 () = cuMemsetD32 (trivVendor Unit) 0 0 0 ())
  ∧ (cuTexRefSetAddress (trivVendor Unit) 0 0 0 0 () =
       cuTexRefSetAddress (trivVendor Unit) 0 0 0 0 ()) := by
  obtain ⟨h1, h2, h3, h4, h5, h6, h7, h8, h9, h10, h11, h12, h13, h14, h15, h16, h17, h18⟩ :=
    C10_deterministic_no_hidden_state Unit (trivVendor Unit) (trivVendor Unit)
  exact ⟨h1 rfl cint0 cint0 cint0 cint0 cint0 0 0 (), h2 rfl 0 (),
    h3 rfl 0 0 cint0 0 cint0 cint0 cint0 (), h4 rfl 0 0 (), h5 rfl 0 0 0 (),
    h6 rfl 0 0 0 0 (), h7 rfl 0 0 (), h8 rfl 0 (), h9 rfl 0 0 0 (),
    h10 rfl 0 0 0 (), h11 rfl 0 0 0 (), h12 rfl 0 0 0 (), h13 rfl 0 0 0 0 (),
    h14 rfl 0 0 0 0 (), h15 rfl 0 0 0 (), h16 rfl 0 0 0 (), h17 rfl 0 0 0 (),
    h18 rfl 0 0 0 0 ()⟩

end CudaStubs
